import Mathlib

/-!
Shallow embedding of the legacy RegExp global-match cache from
`src/modules/javafx.web/src/main/native/Source/JavaScriptCore/runtime/RegExpConstructor.h`.

The header under src/ contains the bodies of `RegExpConstructor::performMatch`
(both overloads), `RegExpConstructor::recordMatch`, `setInput`/`input`,
`setMultiline`/`multiline`, and the free function `isRegExp`.  The collaborating
types `MatchResult`, `RegExpCachedResult`, `RegExp` (the matching engine) and the
accessor implementations live in files that are not under src/; those are
modelled from the specification, each marked `Modelled from the spec:`.

Strings are modelled as lists of characters; references to JS strings and
regexps are modelled by value / by numeric identity.
-/

namespace RegExpCache

/-- A subject string, modelled as a list of characters. -/
abbrev Str := List Char

/-- Modelled from the spec: `MatchResult` (runtime/MatchResult.h is not under
src/). `{ matched : bool, start, end }` with `[start, end)` the span of the
whole match; a failed result carries no meaningful offsets. -/
structure MatchResult where
  matched : Bool
  start : Nat
  stop : Nat
  deriving DecidableEq, Repr

/-- `MatchResult::failed()`: the non-matched result. -/
def MatchResult.failed : MatchResult := ⟨false, 0, 0⟩

/-- Modelled from the spec: the external matching engine behind `RegExp::match`
(RegExp.h is not under src/).  §6: `match(subject, startOffset) ->
(position, captureOffsets) | none`.  On success it yields the whole-match span
`(start, stop)` together with one signed offset pair per capture group
(groups 1..N); a group that did not participate carries the sentinel `(-1, -1)`.
`rid` models the identity of the compiled regex object. -/
structure RegExp where
  rid : Nat
  engine : Str → Int → Option (Nat × Nat × List (Int × Int))

/-- Whether a capture-group offset pair denotes a participating group
(spec §3: a non-participating group uses the sentinel of negative offsets). -/
def participated (p : Int × Int) : Bool :=
  decide (0 ≤ p.1) && decide (0 ≤ p.2)

/-- Slice a subject string by a signed offset pair `[p.1, p.2)`. -/
def sliceP (s : Str) (p : Int × Int) : Str :=
  (s.take p.2.toNat).drop p.1.toNat

/-- Modelled from the spec: `RegExpCachedResult` (RegExpCachedResult.h is not
under src/).  §3: holds the last successful match, the matched subject, the
regex used (by identity), the capture offset buffer (index 0 = whole match),
and the independently-set explicit input. -/
structure RegExpCachedResult where
  lastMatch : MatchResult
  subject : Str
  regex : Option Nat
  offsets : List (Int × Int)
  explicitInput : Option Str
  deriving DecidableEq, Repr

/-- The empty cache a constructor starts with (spec §3 lifecycle:
`CachedResult` is created empty alongside its owning constructor). -/
def RegExpCachedResult.initial : RegExpCachedResult :=
  { lastMatch := MatchResult.failed
    subject := []
    regex := none
    offsets := []
    explicitInput := none }

/-- Modelled from the spec: `RegExpCachedResult::record` (not under src/).
§4.1: on success the entire snapshot — match span, offsets buffer,
subject/regex references — is replaced in one step; §3: index 0 of the stored
buffer is the whole-match span.  The explicit input is an independent channel
(§4.2) and is not part of the snapshot. -/
def RegExpCachedResult.record (c : RegExpCachedResult) (regExp : RegExp)
    (string : Str) (result : MatchResult) (groups : List (Int × Int)) :
    RegExpCachedResult :=
  { lastMatch := result
    subject := string
    regex := some regExp.rid
    offsets := ((result.start : Int), (result.stop : Int)) :: groups
    explicitInput := c.explicitInput }

/-- Modelled from the spec: `RegExpCachedResult::setInput` (not under src/).
§4.2: updates only the explicit-input reference. -/
def RegExpCachedResult.setInput (c : RegExpCachedResult) (s : Str) :
    RegExpCachedResult :=
  { c with explicitInput := some s }

/-- Modelled from the spec: the `input` accessor (not under src/). §4.2:
returns the explicit-input reference if set, else the last matched subject
(empty for an empty cache, whose subject is empty). -/
def RegExpCachedResult.inputVal (c : RegExpCachedResult) : Str :=
  c.explicitInput.getD c.subject

/-- Modelled from the spec: `lastMatch` accessor / `getBackref(0)` (not under
src/). §4.2: `subject[lastMatch.start : lastMatch.end]`, empty for an empty
cache. -/
def RegExpCachedResult.lastMatchStr (c : RegExpCachedResult) : Str :=
  if c.lastMatch.matched then
    (c.subject.take c.lastMatch.stop).drop c.lastMatch.start
  else []

/-- Modelled from the spec: `getLeftContext` (not under src/). §4.2:
`subject[0 : lastMatch.start]`, empty for an empty cache. -/
def RegExpCachedResult.getLeftContext (c : RegExpCachedResult) : Str :=
  if c.lastMatch.matched then c.subject.take c.lastMatch.start else []

/-- Modelled from the spec: `getRightContext` (not under src/). §4.2:
`subject[lastMatch.end : end of subject]`, empty for an empty cache. -/
def RegExpCachedResult.getRightContext (c : RegExpCachedResult) : Str :=
  if c.lastMatch.matched then c.subject.drop c.lastMatch.stop else []

/-- Modelled from the spec: `getBackref` (not under src/). §4.2: group 0 is the
whole match; for `n ≥ 1`, `subject[offsets[n].start : offsets[n].end]` if group
`n` exists and participated, otherwise the empty string. -/
def RegExpCachedResult.getBackref (c : RegExpCachedResult) (n : Nat) : Str :=
  if n = 0 then c.lastMatchStr
  else
    match c.offsets.get? n with
    | some p => if participated p then sliceP c.subject p else []
    | none => []

/-- Modelled from the spec: the scan inside `getLastParen` (not under src/).
§4.2: scans capture groups from the highest index down to 1 and returns the
text of the first participating one; `k` is the highest index still to try. -/
def lastParenScan (subject : Str) (offsets : List (Int × Int)) : Nat → Str
  | 0 => []
  | k + 1 =>
    match offsets.get? (k + 1) with
    | some p => if participated p then sliceP subject p
                else lastParenScan subject offsets k
    | none => lastParenScan subject offsets k

/-- Modelled from the spec: `getLastParen` (not under src/).  The buffer has
`offsets.length - 1` capture groups (entry 0 is the whole match), so the scan
starts at that index. -/
def RegExpCachedResult.getLastParen (c : RegExpCachedResult) : Str :=
  lastParenScan c.subject c.offsets (c.offsets.length - 1)

/-- The mutable state of a `RegExpConstructor`:
`m_cachedResult`, `m_multiline` and the reused `m_ovector` buffer
(RegExpConstructor.h lines 84–86).  The source keeps `m_ovector` as a flat
`Vector<int>` where pair `k` sits at indices `2k, 2k+1`; it is modelled as the
corresponding list of pairs. -/
structure RegExpConstructorState where
  m_cachedResult : RegExpCachedResult
  m_multiline : Bool
  m_ovector : List (Int × Int)
  deriving DecidableEq, Repr

/-- A constructor's initial state. -/
def RegExpConstructorState.initial : RegExpConstructorState :=
  { m_cachedResult := RegExpCachedResult.initial
    m_multiline := false
    m_ovector := [] }

/-- `RegExpConstructor::performMatch` (offsets-visible overload,
RegExpConstructor.h lines 96–114).  The engine fills `m_ovector`; when the
caller passed a non-null `ovector` out-parameter (`wantOvector`), the internal
buffer is handed out before the outcome is checked.  On `position == -1` the
failed result is returned and the cache is untouched (the engine's buffer
contents on failure are unspecified and modelled as unchanged); on success
`end = m_ovector[1]` and the cache records `MatchResult(position, end)`. -/
def RegExpConstructorState.performMatchOv (st : RegExpConstructorState)
    (regExp : RegExp) (string inputStr : Str) (startOffset : Int)
    (wantOvector : Bool) :
    MatchResult × RegExpConstructorState × Option (List (Int × Int)) :=
  match regExp.engine inputStr startOffset with
  | none =>
    (MatchResult.failed, st,
      if wantOvector then some st.m_ovector else none)
  | some (s, e, groups) =>
    let ov : List (Int × Int) := ((s : Int), (e : Int)) :: groups
    let result : MatchResult := ⟨true, s, e⟩
    (result,
      { st with
        m_ovector := ov
        m_cachedResult := st.m_cachedResult.record regExp string result groups },
      if wantOvector then some ov else none)

/-- `RegExpConstructor::performMatch` (plain overload, RegExpConstructor.h
lines 115–121): `result = regExp->match(...); if (result) record; return
result` — `m_ovector` is not involved. -/
def RegExpConstructorState.performMatch (st : RegExpConstructorState)
    (regExp : RegExp) (string inputStr : Str) (startOffset : Int) :
    MatchResult × RegExpConstructorState :=
  match regExp.engine inputStr startOffset with
  | none => (MatchResult.failed, st)
  | some (s, e, groups) =>
    let result : MatchResult := ⟨true, s, e⟩
    (result,
      { st with
        m_cachedResult := st.m_cachedResult.record regExp string result groups })

/-- `RegExpConstructor::recordMatch` (RegExpConstructor.h lines 123–127):
asserts that `result` is successful and records it.  The source passes no
capture buffer here; the group entries of this path are modelled as empty. -/
def RegExpConstructorState.recordMatch (st : RegExpConstructorState)
    (regExp : RegExp) (string : Str) (result : MatchResult) :
    RegExpConstructorState :=
  { st with m_cachedResult := st.m_cachedResult.record regExp string result [] }

/-- `RegExpConstructor::setInput` (line 70): delegates to the cached result. -/
def RegExpConstructorState.setInput (st : RegExpConstructorState) (s : Str) :
    RegExpConstructorState :=
  { st with m_cachedResult := st.m_cachedResult.setInput s }

/-- `RegExpConstructor::setMultiline` (line 62). -/
def RegExpConstructorState.setMultiline (st : RegExpConstructorState)
    (b : Bool) : RegExpConstructorState :=
  { st with m_multiline := b }

/-- `RegExpConstructor::input` (line 71). -/
def RegExpConstructorState.inputVal (st : RegExpConstructorState) : Str :=
  st.m_cachedResult.inputVal

/-- Constructor-level accessor delegating to the cache (declared at line 65). -/
def RegExpConstructorState.getBackref (st : RegExpConstructorState) (n : Nat) :
    Str :=
  st.m_cachedResult.getBackref n

/-- Constructor-level accessor delegating to the cache (declared at line 66). -/
def RegExpConstructorState.getLastParen (st : RegExpConstructorState) : Str :=
  st.m_cachedResult.getLastParen

/-- Constructor-level accessor delegating to the cache (declared at line 67). -/
def RegExpConstructorState.getLeftContext (st : RegExpConstructorState) : Str :=
  st.m_cachedResult.getLeftContext

/-- Constructor-level accessor delegating to the cache (declared at line 68). -/
def RegExpConstructorState.getRightContext (st : RegExpConstructorState) :
    Str :=
  st.m_cachedResult.getRightContext

/-- States reachable from the initial constructor state through the dispatch
entry points and the independent setters.  `recordMatch` carries the source's
asserted precondition that the recorded result is successful. -/
inductive Reachable : RegExpConstructorState → Prop where
  | init : Reachable RegExpConstructorState.initial
  | stepOv {st} (r : RegExp) (string inputStr : Str) (off : Int) (w : Bool) :
      Reachable st →
      Reachable (st.performMatchOv r string inputStr off w).2.1
  | step {st} (r : RegExp) (string inputStr : Str) (off : Int) :
      Reachable st → Reachable (st.performMatch r string inputStr off).2
  | stepRecord {st} (r : RegExp) (string : Str) (result : MatchResult) :
      Reachable st → result.matched = true →
      Reachable (st.recordMatch r string result)
  | stepSetInput {st} (s : Str) :
      Reachable st → Reachable (st.setInput s)
  | stepSetMultiline {st} (b : Bool) :
      Reachable st → Reachable (st.setMultiline b)

/-- Modelled from the spec / JSValue.h (not under src/): the values the
predicate `isRegExp` inspects.  An object carries the outcome of looking up
the well-known match-capability property (`matchThrows` models a throwing
getter, otherwise `matchValue` is the property's value, `undefined` when
absent) and the native type tag `inherits<RegExpObject>`. -/
inductive JSValue where
  | undefined : JSValue
  | null : JSValue
  | boolean (b : Bool) : JSValue
  | jsNumber (n : Int) : JSValue
  | jsString (s : Str) : JSValue
  | object (matchThrows : Option Nat) (matchValue : JSValue)
      (isRegExpObject : Bool) : JSValue

/-- `JSValue::isObject`. -/
def JSValue.isObject : JSValue → Bool
  | .object _ _ _ => true
  | _ => false

/-- `JSValue::isUndefined`. -/
def JSValue.isUndefined : JSValue → Bool
  | .undefined => true
  | _ => false

/-- Modelled from the spec / JSValue.h (not under src/): the host's boolean
coercion (the source's toBoolean).  It is total: the source performs no
exception check after calling it. -/
def JSValue.toBool : JSValue → Bool
  | .undefined => false
  | .null => false
  | .boolean b => b
  | .jsNumber n => decide (n ≠ 0)
  | .jsString s => decide (s ≠ [])
  | .object _ _ _ => true

/-- `isRegExp` (RegExpConstructor.h lines 129–142): non-objects are not
regex-like; a throwing capability lookup propagates (`RETURN_IF_EXCEPTION`);
a defined capability value is coerced to boolean and returned; otherwise the
native type tag decides. -/
def isRegExp : JSValue → Except Nat Bool
  | .object matchThrows matchValue tag =>
    match matchThrows with
    | some e => .error e
    | none =>
      if !matchValue.isUndefined then .ok matchValue.toBool
      else .ok tag
  | _ => .ok false

/-- A concrete subject string used as a test vector (spec §8's example). -/
def helloWorld : Str := "hello world".toList

/-- A concrete regex whose engine always matches span `[4, 7)` with one
participating group `[5, 6)` and one non-participating group. -/
def okRegExp : RegExp := ⟨3, fun _ _ => some (4, 7, [(5, 6), (-1, -1)])⟩

/-- A concrete regex whose engine never matches. -/
def failRegExp : RegExp := ⟨7, fun _ _ => none⟩

/-- The constructor state after one successful `performMatch` of `okRegExp`
against `helloWorld`. -/
def sampleState : RegExpConstructorState :=
  (RegExpConstructorState.initial.performMatch okRegExp helloWorld helloWorld 0).2

/-- C1: when the engine reports no match, both `performMatch` overloads return
the non-matched `MatchResult` and leave the `CachedResult` completely
unchanged, so every accessor (input, lastMatch, getBackref, getLastParen,
getLeftContext, getRightContext) subsequently observes exactly the values it
observed before the failed call. -/
theorem c1_failed_match_leaves_cache_untouched
    (st : RegExpConstructorState) (r : RegExp) (string inputStr : Str)
    (off : Int) (w : Bool) (hfail : r.engine inputStr off = none) :
    (st.performMatchOv r string inputStr off w).1 = MatchResult.failed ∧
    (st.performMatchOv r string inputStr off w).2.1.m_cachedResult =
      st.m_cachedResult ∧
    (st.performMatch r string inputStr off).1 = MatchResult.failed ∧
    (st.performMatch r string inputStr off).2 = st ∧
    (st.performMatchOv r string inputStr off w).2.1.inputVal = st.inputVal ∧
    (st.performMatchOv r string inputStr off w).2.1.m_cachedResult.lastMatchStr
      = st.m_cachedResult.lastMatchStr ∧
    (∀ n, (st.performMatchOv r string inputStr off w).2.1.getBackref n =
      st.getBackref n) ∧
    (st.performMatchOv r string inputStr off w).2.1.getLastParen =
      st.getLastParen ∧
    (st.performMatchOv r string inputStr off w).2.1.getLeftContext =
      st.getLeftContext ∧
    (st.performMatchOv r string inputStr off w).2.1.getRightContext =
      st.getRightContext := by
  simp [RegExpConstructorState.performMatchOv,
    RegExpConstructorState.performMatch, hfail]

/-- Witness for C1: record a successful match, then perform a failing match
with a different subject; the cached result still reflects the first match. -/
theorem c1_witness :
    (sampleState.performMatchOv failRegExp [] [] 0 true).2.1.m_cachedResult =
      sampleState.m_cachedResult :=
  (c1_failed_match_leaves_cache_untouched sampleState failRegExp [] [] 0 true
    rfl).2.1

/-- C2: when the engine reports a match, both `performMatch` overloads replace
the entire `CachedResult` snapshot (match span, offsets buffer, subject and
regex references) in one step with values determined solely by the new match —
no prior snapshot field survives — and return a successful `MatchResult` equal
to the recorded one. -/
theorem c2_successful_match_replaces_snapshot
    (st : RegExpConstructorState) (r : RegExp) (string inputStr : Str)
    (off : Int) (w : Bool) (s e : Nat) (groups : List (Int × Int))
    (heng : r.engine inputStr off = some (s, e, groups)) :
    (st.performMatchOv r string inputStr off w).1 = ⟨true, s, e⟩ ∧
    (st.performMatchOv r string inputStr off w).2.1.m_cachedResult =
      { lastMatch := ⟨true, s, e⟩
        subject := string
        regex := some r.rid
        offsets := ((s : Int), (e : Int)) :: groups
        explicitInput := st.m_cachedResult.explicitInput } ∧
    (st.performMatch r string inputStr off).1 = ⟨true, s, e⟩ ∧
    (st.performMatch r string inputStr off).2.m_cachedResult =
      { lastMatch := ⟨true, s, e⟩
        subject := string
        regex := some r.rid
        offsets := ((s : Int), (e : Int)) :: groups
        explicitInput := st.m_cachedResult.explicitInput } ∧
    (st.performMatchOv r string inputStr off w).1 =
      (st.performMatchOv r string inputStr off w).2.1.m_cachedResult.lastMatch
      := by
  simp [RegExpConstructorState.performMatchOv,
    RegExpConstructorState.performMatch, RegExpCachedResult.record, heng]

/-- Witness for C2: a concrete successful match fully determines the new
cached snapshot. -/
theorem c2_witness :
    (RegExpConstructorState.initial.performMatchOv okRegExp helloWorld
        helloWorld 0 false).2.1.m_cachedResult =
      { lastMatch := ⟨true, 4, 7⟩
        subject := helloWorld
        regex := some 3
        offsets := [(4, 7), (5, 6), (-1, -1)]
        explicitInput := none } :=
  (c2_successful_match_replaces_snapshot RegExpConstructorState.initial
    okRegExp helloWorld helloWorld 0 false 4 7 [(5, 6), (-1, -1)] rfl).2.1

/-- C7: `isRegExp` returns false on non-objects; an object's defined
match-capability value, coerced to boolean, always wins; only an
absent/undefined capability falls back to the native type tag. -/
theorem c7_isRegExp_capability_override (v mv : JSValue) (tag : Bool) :
    (v.isObject = false → isRegExp v = .ok false) ∧
    (mv.isUndefined = false →
      isRegExp (.object none mv tag) = .ok mv.toBool) ∧
    isRegExp (.object none .undefined tag) = .ok tag := by
  refine ⟨?_, ?_, rfl⟩
  · intro h
    cases v <;> simp_all [isRegExp, JSValue.isObject]
  · intro h
    simp [isRegExp, h]

/-- Witness for C7: a non-object; a native regex opting out via capability
`false`; a native regex with the capability absent; a non-regex opting in via
a truthy capability value. -/
theorem c7_witness :
    isRegExp .null = .ok false ∧
    isRegExp (.object none (.boolean false) true) = .ok false ∧
    isRegExp (.object none .undefined true) = .ok true ∧
    isRegExp (.object none (.jsNumber 1) false) = .ok true :=
  ⟨(c7_isRegExp_capability_override .null .null true).1 rfl,
   (c7_isRegExp_capability_override .null (.boolean false) true).2.1 rfl,
   (c7_isRegExp_capability_override .null .null true).2.2,
   (c7_isRegExp_capability_override .null (.jsNumber 1) false).2.1 rfl⟩

/-- C8: an error raised during the capability lookup propagates immediately
out of `isRegExp`, and the native-type tag is never consulted: the outcome is
independent of the tag. -/
theorem c8_lookup_error_propagates (e : Nat) (mv : JSValue) (tag tag2 : Bool) :
    isRegExp (.object (some e) mv tag) = .error e ∧
    isRegExp (.object (some e) mv tag) = isRegExp (.object (some e) mv tag2) :=
  ⟨rfl, rfl⟩

/-- C9: `setInput` changes only the value subsequently returned by the input
accessor; the cached `MatchResult`, the offsets buffer, and all match-derived
accessors are unchanged. -/
theorem c9_setInput_changes_only_input (st : RegExpConstructorState)
    (s : Str) :
    (st.setInput s).inputVal = s ∧
    (st.setInput s).m_cachedResult.lastMatch = st.m_cachedResult.lastMatch ∧
    (st.setInput s).m_cachedResult.offsets = st.m_cachedResult.offsets ∧
    (st.setInput s).m_cachedResult.lastMatchStr =
      st.m_cachedResult.lastMatchStr ∧
    (∀ n, (st.setInput s).getBackref n = st.getBackref n) ∧
    (st.setInput s).getLastParen = st.getLastParen ∧
    (st.setInput s).getLeftContext = st.getLeftContext ∧
    (st.setInput s).getRightContext = st.getRightContext := by
  simp [RegExpConstructorState.setInput, RegExpCachedResult.setInput,
    RegExpConstructorState.inputVal, RegExpCachedResult.inputVal,
    RegExpConstructorState.getBackref, RegExpCachedResult.getBackref,
    RegExpConstructorState.getLastParen, RegExpCachedResult.getLastParen,
    RegExpConstructorState.getLeftContext, RegExpCachedResult.getLeftContext,
    RegExpConstructorState.getRightContext, RegExpCachedResult.getRightContext,
    RegExpCachedResult.lastMatchStr]

/-- C10: the offsets-visible `performMatch` hands the internal reused buffer
to a non-null `ovector` out-parameter on every call, before the outcome is
checked; in particular on a failed match the caller still receives the buffer
while nothing is recorded. -/
theorem c10_ovector_always_handed_out (st : RegExpConstructorState)
    (r : RegExp) (string inputStr : Str) (off : Int) :
    (st.performMatchOv r string inputStr off true).2.2 =
      some (st.performMatchOv r string inputStr off true).2.1.m_ovector ∧
    (st.performMatchOv r string inputStr off false).2.2 = none ∧
    (r.engine inputStr off = none →
      (st.performMatchOv r string inputStr off true).2.2 =
        some st.m_ovector ∧
      (st.performMatchOv r string inputStr off true).2.1.m_cachedResult =
        st.m_cachedResult) := by
  cases heng : r.engine inputStr off <;>
    simp [RegExpConstructorState.performMatchOv, heng]

/-- Witness for C10: a concrete failing match still hands out the buffer. -/
theorem c10_witness :
    (sampleState.performMatchOv failRegExp helloWorld helloWorld 0 true).2.2 =
      some sampleState.m_ovector :=
  ((c10_ovector_always_handed_out sampleState failRegExp helloWorld helloWorld
    0).2.2 rfl).1

/-- C3: in every state reachable through the dispatch entry points, once a
match has been recorded, entry 0 of the capture offset buffer equals the span
of the cached `MatchResult`. -/
theorem c3_offsets_head_is_match_span (st : RegExpConstructorState)
    (hst : Reachable st)
    (hm : st.m_cachedResult.lastMatch.matched = true) :
    st.m_cachedResult.offsets.get? 0 =
      some ((st.m_cachedResult.lastMatch.start : Int),
            (st.m_cachedResult.lastMatch.stop : Int)) := by
  induction hst with
  | init =>
    simp [RegExpConstructorState.initial, RegExpCachedResult.initial,
      MatchResult.failed] at hm
  | stepOv r string inputStr off w _ ih =>
    rename_i st' _
    cases heng : r.engine inputStr off with
    | none =>
      simp only [RegExpConstructorState.performMatchOv, heng] at hm ⊢
      exact ih hm
    | some t =>
      obtain ⟨s, e, groups⟩ := t
      simp [RegExpConstructorState.performMatchOv, heng,
        RegExpCachedResult.record]
  | step r string inputStr off _ ih =>
    rename_i st' _
    cases heng : r.engine inputStr off with
    | none =>
      simp only [RegExpConstructorState.performMatch, heng] at hm ⊢
      exact ih hm
    | some t =>
      obtain ⟨s, e, groups⟩ := t
      simp [RegExpConstructorState.performMatch, heng,
        RegExpCachedResult.record]
  | stepRecord r string result _ hres ih =>
    simp [RegExpConstructorState.recordMatch, RegExpCachedResult.record]
  | stepSetInput s _ ih =>
    simp only [RegExpConstructorState.setInput,
      RegExpCachedResult.setInput] at hm ⊢
    exact ih hm
  | stepSetMultiline b _ ih =>
    simp only [RegExpConstructorState.setMultiline] at hm ⊢
    exact ih hm

/-- Witness for C3: the invariant at a concrete reachable state. -/
theorem c3_witness :
    sampleState.m_cachedResult.offsets.get? 0 = some ((4 : Int), (7 : Int)) :=
  c3_offsets_head_is_match_span sampleState
    (Reachable.step okRegExp helloWorld helloWorld 0 Reachable.init) rfl

/-- C4: after a successful match of span `[s, e)` within subject `S`,
`getLeftContext ++ lastMatch ++ getRightContext` reproduces `S` exactly. -/
theorem c4_context_concat_is_subject (st : RegExpConstructorState)
    (r : RegExp) (S : Str) (off : Int) (s e : Nat)
    (groups : List (Int × Int))
    (heng : r.engine S off = some (s, e, groups)) (hse : s ≤ e)
    (heS : e ≤ S.length) :
    (st.performMatch r S S off).2.getLeftContext ++
      (st.performMatch r S S off).2.m_cachedResult.lastMatchStr ++
      (st.performMatch r S S off).2.getRightContext = S := by
  simp only [RegExpConstructorState.performMatch, heng,
    RegExpConstructorState.getLeftContext, RegExpConstructorState.getRightContext,
    RegExpCachedResult.record, RegExpCachedResult.getLeftContext,
    RegExpCachedResult.getRightContext, RegExpCachedResult.lastMatchStr,
    if_pos]
  have h1 : S.take s ++ (S.take e).drop s = S.take e := by
    have h2 : S.take s = (S.take e).take s := by
      rw [List.take_take, Nat.min_eq_left hse]
    rw [h2, List.take_append_drop]
  rw [h1, List.take_append_drop]

/-- Witness for C4 at the spec's example: subject `"hello world"`, match
`"o w"` at span `[4, 7)`. -/
theorem c4_witness :
    (RegExpConstructorState.initial.performMatch okRegExp helloWorld
        helloWorld 0).2.getLeftContext ++
      (RegExpConstructorState.initial.performMatch okRegExp helloWorld
        helloWorld 0).2.m_cachedResult.lastMatchStr ++
      (RegExpConstructorState.initial.performMatch okRegExp helloWorld
        helloWorld 0).2.getRightContext = helloWorld :=
  c4_context_concat_is_subject RegExpConstructorState.initial okRegExp
    helloWorld 0 4 7 [(5, 6), (-1, -1)] rfl (by decide) (by decide)

/-- C5: `getBackref n` is total and degrades to the empty string: for `n`
beyond the capture groups of the recorded match, for a group that did not
participate, and on an empty cache. -/
theorem c5_getBackref_defaults_to_empty (c : RegExpCachedResult) (n : Nat) :
    (1 ≤ n → c.offsets.get? n = none → c.getBackref n = []) ∧
    (∀ p, 1 ≤ n → c.offsets.get? n = some p → participated p = false →
      c.getBackref n = []) ∧
    (c.lastMatch.matched = false → c.offsets = [] → c.getBackref n = []) := by
  refine ⟨?_, ?_, ?_⟩
  · intro h1 h2
    have hn : n ≠ 0 := by omega
    rw [List.get?_eq_getElem?] at h2
    simp [RegExpCachedResult.getBackref, hn, h2]
  · intro p h1 h2 hp
    have hn : n ≠ 0 := by omega
    rw [List.get?_eq_getElem?] at h2
    simp [RegExpCachedResult.getBackref, hn, h2, hp]
  · intro hm hoffs
    cases n with
    | zero => simp [RegExpCachedResult.getBackref,
        RegExpCachedResult.lastMatchStr, hm]
    | succ k => simp [RegExpCachedResult.getBackref, hoffs]

/-- Witness for C5: out-of-range group, non-participating group, and empty
cache all yield the empty string. -/
theorem c5_witness :
    sampleState.m_cachedResult.getBackref 9 = [] ∧
    sampleState.m_cachedResult.getBackref 2 = [] ∧
    RegExpCachedResult.initial.getBackref 5 = [] :=
  ⟨(c5_getBackref_defaults_to_empty sampleState.m_cachedResult 9).1
      (by decide) rfl,
   (c5_getBackref_defaults_to_empty sampleState.m_cachedResult 2).2.1
      (-1, -1) (by decide) rfl rfl,
   (c5_getBackref_defaults_to_empty RegExpCachedResult.initial 5).2.2 rfl rfl⟩

/-- The downward scan yields the empty string when no group in `1..k`
participated. -/
theorem lastParenScan_eq_nil (subject : Str) (offsets : List (Int × Int))
    (k : Nat)
    (h : ∀ j p, 1 ≤ j → j ≤ k → offsets.get? j = some p →
      participated p = false) :
    lastParenScan subject offsets k = [] := by
  induction k with
  | zero => rfl
  | succ k ih =>
    simp only [lastParenScan]
    cases hg : offsets.get? (k + 1) with
    | none =>
      exact ih fun j p h1 h2 hp => h j p h1 (by omega) hp
    | some p =>
      have hp := h (k + 1) p (by omega) (by omega) hg
      simp only [hp, Bool.false_eq_true, if_false]
      exact ih fun j p h1 h2 hp => h j p h1 (by omega) hp

/-- The downward scan returns the text of group `i` when `i` participates and
every group strictly above it (up to `k`) does not. -/
theorem lastParenScan_eq_of_highest (subject : Str)
    (offsets : List (Int × Int)) (k i : Nat) (p : Int × Int)
    (h1 : 1 ≤ i) (h2 : i ≤ k) (hg : offsets.get? i = some p)
    (hp : participated p = true)
    (habove : ∀ j q, i < j → j ≤ k → offsets.get? j = some q →
      participated q = false) :
    lastParenScan subject offsets k = sliceP subject p := by
  induction k with
  | zero => omega
  | succ k ih =>
    by_cases hik : i = k + 1
    · subst hik
      simp only [lastParenScan, hg]
      simp [hp]
    · have h2' : i ≤ k := by omega
      simp only [lastParenScan]
      cases hq : offsets.get? (k + 1) with
      | none =>
        exact ih h2' fun j q hj1 hj2 => habove j q hj1 (by omega)
      | some q =>
        have hqf : participated q = false :=
          habove (k + 1) q (by omega) (by omega) hq
        simp only [hqf, Bool.false_eq_true, if_false]
        exact ih h2' fun j q hj1 hj2 => habove j q hj1 (by omega)

/-- C6: `getLastParen` returns the text of the highest-indexed participating
capture group of the last recorded match, and the empty string when no group
participated (in particular on an empty cache). -/
theorem c6_getLastParen_highest_participating (c : RegExpCachedResult) :
    ((∀ p ∈ c.offsets.drop 1, participated p = false) →
      c.getLastParen = []) ∧
    (∀ i p, 1 ≤ i → c.offsets.get? i = some p → participated p = true →
      (∀ j q, i < j → c.offsets.get? j = some q → participated q = false) →
      c.getLastParen = sliceP c.subject p) := by
  constructor
  · intro h
    refine lastParenScan_eq_nil c.subject c.offsets _ fun j p h1 h2 hp => ?_
    refine h p ?_
    have : (c.offsets.drop 1).get? (j - 1) = c.offsets.get? j := by
      rw [List.get?_drop]
      congr 1
      omega
    exact List.get?_mem (this ▸ hp)
  · intro i p h1 hg hp habove
    have hlen : i < c.offsets.length := by
      by_contra hge
      rw [List.get?_eq_none.2 (by omega)] at hg
      exact Option.noConfusion hg
    exact lastParenScan_eq_of_highest c.subject c.offsets
      (c.offsets.length - 1) i p h1 (by omega) hg hp
      fun j q hj1 hj2 => habove j q hj1

/-- Witness for C6: in the sample match, group 1 participates and group 2 does
not, so `getLastParen` is group 1's text, the single space of
`"hello world"`. -/
theorem c6_witness : sampleState.m_cachedResult.getLastParen = [' '] := by
  have ho : sampleState.m_cachedResult.offsets = [(4, 7), (5, 6), (-1, -1)] :=
    rfl
  have h := (c6_getLastParen_highest_participating
    sampleState.m_cachedResult).2 1 (5, 6) (by decide) rfl rfl ?habove
  · simpa using h
  case habove =>
    intro j q hj hq
    rw [ho] at hq
    have hj3 : j < 3 := by
      by_contra hge
      rw [List.get?_eq_none.2 (by simp; omega)] at hq
      exact Option.noConfusion hq
    have hj2 : j = 2 := by omega
    subst hj2
    simp only [List.get?] at hq
    cases hq
    rfl

end RegExpCache
